import Mathlib

set_option maxRecDepth 100000

/-!
Shallow embedding of the zone-based pure price action strategy of
`modules/strategies.py`, over exact rational arithmetic.

Conventions of the embedding:

* A pandas cell is `V := Option ℚ`; `none` models NaN (a missing or
  non-numeric datum).  Comparisons involving NaN are `false`, matching
  pandas boolean semantics; arithmetic involving NaN yields NaN.
* Division by zero yields `none`.  (Pandas would produce an infinity;
  after the cleaning passes the divisors that matter are never zero on
  reachable paths, and a missing value is skipped by the same NaN guards
  that guard the decision loops we verify.)
* `np.std` returns the square root of the population variance; to stay
  inside ℚ the embedding `calculate_volatility_sq` returns the squared
  value, i.e. the population variance itself.  The square root is
  strictly monotone and zero exactly at zero, so every claim about the
  volatility being zero or being the standard deviation of the simple
  returns transfers verbatim.
* Diagnostic-only dataframe columns that no decision reads (returns,
  volatility, price_range, avg_range, near_resistance, near_support,
  price_position, price_volume_momentum, body_size, upper_shadow,
  lower_shadow, total_range, body_ratio, pivot_high, pivot_low,
  dynamic_resistance, dynamic_support, prev_open, prev_high, prev_low,
  prev_close, resistance_touches, support_touches) are not
  materialised; every column feeding the emitted signal is embedded.
-/

namespace PA

/-- A pandas cell: `none` models NaN. -/
abbrev V := Option ℚ

/-- pd.isna on a cell. -/
def vIsNa (v : V) : Bool := v.isNone

/-- NaN-propagating subtraction. -/
def vsub : V → V → V
  | some a, some b => some (a - b)
  | _, _ => none

/-- NaN-propagating multiplication. -/
def vmul : V → V → V
  | some a, some b => some (a * b)
  | _, _ => none

/-- NaN-propagating division; division by zero is modelled as missing. -/
def vdiv : V → V → V
  | some a, some b => if b = 0 then none else some (a / b)
  | _, _ => none

/-- NaN-propagating absolute value. -/
def vabs : V → V
  | some a => some |a|
  | none => none

/-- Strict less-than with pandas NaN semantics (NaN compares false). -/
def vlt : V → V → Bool
  | some a, some b => decide (a < b)
  | _, _ => false

/-- Less-or-equal with pandas NaN semantics. -/
def vle : V → V → Bool
  | some a, some b => decide (a ≤ b)
  | _, _ => false

/-- Strict greater-than with pandas NaN semantics. -/
def vgt (a b : V) : Bool := vlt b a

/-- Greater-or-equal with pandas NaN semantics. -/
def vge (a b : V) : Bool := vle b a

/-- Column access; out-of-range or missing cells read as NaN. -/
def getV (xs : List V) (i : ℕ) : V := xs.getD i none

/-- Positional slice `xs.iloc[a : a+len]`. -/
def sliceL (xs : List V) (a len : ℕ) : List V := (xs.drop a).take len

/-- Series.max: maximum of the non-NaN entries, NaN when none exist. -/
def vListMax (xs : List V) : V := (xs.filterMap id).max?

/-- Series.min: minimum of the non-NaN entries, NaN when none exist. -/
def vListMin (xs : List V) : V := (xs.filterMap id).min?

/-- Rolling max over a trailing window of width `w` with
min_periods = w: NaN before the window fills or when the window
contains a NaN. -/
def rollingMaxAt (xs : List V) (w i : ℕ) : V :=
  if i + 1 < w then none
  else
    let s := sliceL xs (i + 1 - w) w
    if s.length < w then none
    else if s.any (·.isNone) then none
    else vListMax s

/-- Rolling min over a trailing window of width `w` with
min_periods = w. -/
def rollingMinAt (xs : List V) (w i : ℕ) : V :=
  if i + 1 < w then none
  else
    let s := sliceL xs (i + 1 - w) w
    if s.length < w then none
    else if s.any (·.isNone) then none
    else vListMin s

/-- Sum of a rational list. -/
def listSum (xs : List ℚ) : ℚ := xs.foldr (· + ·) 0

/-- Rolling mean over a trailing window of width `w` with
min_periods = w. -/
def rollingMeanAt (xs : List V) (w i : ℕ) : V :=
  if i + 1 < w then none
  else
    let s := sliceL xs (i + 1 - w) w
    if s.length < w then none
    else if s.any (·.isNone) then none
    else some (listSum (s.filterMap id) / (w : ℚ))

/-- Largest index `k ≤ j` holding a non-NaN value, with that value. -/
def lastSomeLE (xs : List V) : ℕ → Option (ℕ × ℚ)
  | 0 => match getV xs 0 with
    | some v => some (0, v)
    | none => none
  | j + 1 => match getV xs (j + 1) with
    | some v => some (j + 1, v)
    | none => lastSomeLE xs j

/-- Smallest index `k ≥ j` holding a non-NaN value, with that value. -/
def firstSomeGE (xs : List V) (j : ℕ) : Option (ℕ × ℚ) :=
  match (xs.drop j).findIdx? (·.isSome) with
  | none => none
  | some k => match getV xs (j + k) with
    | some v => some (j + k, v)
    | none => none

/-- Cell `j` of `series.interpolate(method = "linear").bfill().ffill()`:
interior gaps are filled linearly between the neighbouring valid
values by position, a trailing gap is filled with the last valid value
(pandas forward interpolation), a leading gap is backfilled with the
first valid value, and an all-NaN column stays NaN. -/
def interpAt (xs : List V) (j : ℕ) : V :=
  match getV xs j with
  | some v => some v
  | none =>
    match lastSomeLE xs j, firstSomeGE xs j with
    | some (p, a), some (q, b) =>
        some (a + (b - a) * (((j : ℚ) - (p : ℚ)) / ((q : ℚ) - (p : ℚ))))
    | some (_, a), none => some a
    | none, some (_, b) => some b
    | none, none => none

/-- The composite cleaning `interpolate(linear).bfill().ffill()`. -/
def cleanColumn (xs : List V) : List V :=
  (List.range xs.length).map (interpAt xs)

/-- Forward fill read at one position (pct_change pads NaN forward
before differencing). -/
def ffillAt (xs : List V) (j : ℕ) : V :=
  match lastSomeLE xs j with
  | some (_, v) => some v
  | none => none

/-- Cleaning applied to a numeric column when it contains NaN
(strategies.py, get_signal and the close pass of add_indicators). -/
def naClean (xs : List V) : List V :=
  if xs.any (·.isNone) then cleanColumn xs else xs

/-- df[col].replace(0, np.nan): only exact zeros become missing;
negative values are left in place. -/
def zeroToNa (xs : List V) : List V :=
  xs.map (fun v => if v = some 0 then none else v)

/-- The add_indicators price-column pass: when some entry is ≤ 0
(a NaN entry compares false, as in pandas), zeros become NaN and the
column is re-interpolated. -/
def nonposClean (xs : List V) : List V :=
  if xs.any (fun v => vle v (some 0)) then cleanColumn (zeroToNa xs) else xs

/-- TradingStrategy.calculate_price_momentum: rate of change over
`window`, 0 on short history or a zero divisor. -/
def calculate_price_momentum (prices : List ℚ) (window : ℕ) : ℚ :=
  if prices.length < window + 1 then 0
  else
    let current := prices.getD (prices.length - 1) 0
    let past := prices.getD (prices.length - window - 1) 0
    if past = 0 then 0 else (current - past) / past

/-- The simple returns of consecutive prices, skipping pairs whose
earlier price is zero (the division-by-zero guard of
calculate_volatility). -/
def simpleReturns : List ℚ → List ℚ
  | [] => []
  | [_] => []
  | a :: b :: rest =>
      (if a = 0 then [] else [(b - a) / a]) ++ simpleReturns (b :: rest)

/-- Population variance, the square of np.std. -/
def popVariance (xs : List ℚ) : ℚ :=
  let n : ℚ := (xs.length : ℚ)
  let m := listSum xs / n
  listSum (xs.map (fun x => (x - m) ^ 2)) / n

/-- TradingStrategy.calculate_volatility, squared (see the header note
on np.std): the population variance of the simple returns over the
trailing `window` prices, 0 on short history or when no valid return
can be formed. -/
def calculate_volatility_sq (prices : List ℚ) (window : ℕ) : ℚ :=
  if prices.length < window then 0
  else
    let recent := prices.drop (prices.length - window)
    let returns := simpleReturns recent
    if returns = [] then 0 else popVariance returns

/-- PurePriceActionStrategy constructor parameters.  The constructor
rejects any nonpositive value; theorems take positivity hypotheses
where relevant. -/
structure Params where
  lookback_period : ℕ
  breakout_threshold : ℚ
  volatility_window : ℕ
  momentum_window : ℕ
  sr_strength : ℕ
  deriving Repr, DecidableEq

/-- The five numeric OHLCV columns of the working dataframe. -/
structure Cols where
  opens : List V
  highs : List V
  lows : List V
  closes : List V
  volumes : List V
  deriving Repr, DecidableEq

/-- Hard-coded zone half width (0.6 percent). -/
def zoneWidth : ℚ := 0.006

/-- Hard-coded minimum tradeable zone strength. -/
def min_zone_strength : ℕ := 3

/-- Hard-coded minimum signal strength of the decision rule. -/
def min_signal_strength : ℕ := 3

/-- df["close"].pct_change(periods = momentum_window) at row `i`
(pandas pads NaN forward before differencing). -/
def priceMomentumAt (p : Params) (c : Cols) (i : ℕ) : V :=
  if i < p.momentum_window then none
  else
    let past := ffillAt c.closes (i - p.momentum_window)
    vdiv (vsub (ffillAt c.closes i) past) past

/-- df["resistance"]: rolling max of highs over the lookback window. -/
def resistanceAt (p : Params) (c : Cols) (i : ℕ) : V :=
  rollingMaxAt c.highs p.lookback_period i

/-- df["support"]: rolling min of lows over the lookback window. -/
def supportAt (p : Params) (c : Cols) (i : ℕ) : V :=
  rollingMinAt c.lows p.lookback_period i

/-- df["avg_volume"]: rolling mean of volume over the lookback window. -/
def avgVolumeAt (p : Params) (c : Cols) (i : ℕ) : V :=
  rollingMeanAt c.volumes p.lookback_period i

/-- df["volume_ratio"] = np.where(avg_volume ≠ 0, volume / avg_volume, 1).
A NaN average compares unequal to zero in pandas, so it selects the
division branch and propagates NaN. -/
def volumeRatioAt (p : Params) (c : Cols) (i : ℕ) : V :=
  if avgVolumeAt p c i = some 0 then some 1
  else vdiv (getV c.volumes i) (avgVolumeAt p c i)

/-- df["dist_from_resistance"] = np.where(close ≠ 0,
(resistance - close) / close, 0). -/
def distFromResistanceAt (p : Params) (c : Cols) (i : ℕ) : V :=
  if getV c.closes i = some 0 then some 0
  else vdiv (vsub (resistanceAt p c i) (getV c.closes i)) (getV c.closes i)

/-- df["dist_from_support"] = np.where(close ≠ 0,
(close - support) / close, 0). -/
def distFromSupportAt (p : Params) (c : Cols) (i : ℕ) : V :=
  if getV c.closes i = some 0 then some 0
  else vdiv (vsub (getV c.closes i) (supportAt p c i)) (getV c.closes i)

/-- df["resistance_zone_upper"] = resistance * (1 + zone_width). -/
def resZoneUpperAt (p : Params) (c : Cols) (i : ℕ) : V :=
  vmul (resistanceAt p c i) (some (1 + zoneWidth))

/-- df["resistance_zone_lower"] = resistance * (1 - zone_width). -/
def resZoneLowerAt (p : Params) (c : Cols) (i : ℕ) : V :=
  vmul (resistanceAt p c i) (some (1 - zoneWidth))

/-- df["support_zone_upper"] = support * (1 + zone_width). -/
def supZoneUpperAt (p : Params) (c : Cols) (i : ℕ) : V :=
  vmul (supportAt p c i) (some (1 + zoneWidth))

/-- df["support_zone_lower"] = support * (1 - zone_width). -/
def supZoneLowerAt (p : Params) (c : Cols) (i : ℕ) : V :=
  vmul (supportAt p c i) (some (1 - zoneWidth))

/-- df["in_resistance_zone"]: close inside the resistance band. -/
def inResistanceZoneAt (p : Params) (c : Cols) (i : ℕ) : Bool :=
  vge (getV c.closes i) (resZoneLowerAt p c i) &&
  vle (getV c.closes i) (resZoneUpperAt p c i)

/-- df["in_support_zone"]: close inside the support band. -/
def inSupportZoneAt (p : Params) (c : Cols) (i : ℕ) : Bool :=
  vge (getV c.closes i) (supZoneLowerAt p c i) &&
  vle (getV c.closes i) (supZoneUpperAt p c i)

/-- Resistance zone interaction counts over a given trailing window of
highs and closes (the body of the add_indicators loop): touches of
highs inside the band, closes inside the band, and rejections (the
high reached at least the lower bound while the close finished below
it), with strength = touches + time_in_zone + 2 * rejections. -/
def resZoneStrengthOver (hs cs : List V) (r : ℚ) : ℕ :=
  let zu := r * (1 + zoneWidth)
  let zl := r * (1 - zoneWidth)
  let touches := hs.countP (fun h => vge h (some zl) && vle h (some zu))
  let timeInZone := cs.countP (fun x => vge x (some zl) && vle x (some zu))
  let rejections :=
    (hs.zip cs).countP (fun pr => vge pr.1 (some zl) && vlt pr.2 (some zl))
  touches + timeInZone + rejections * 2

/-- Support zone interaction counts over a given trailing window of
lows and closes: touches of lows inside the band, closes inside the
band, and rejections (the low dipped to at most the upper bound while
the close finished above it). -/
def supZoneStrengthOver (ls cs : List V) (s : ℚ) : ℕ :=
  let zu := s * (1 + zoneWidth)
  let zl := s * (1 - zoneWidth)
  let touches := ls.countP (fun l => vge l (some zl) && vle l (some zu))
  let timeInZone := cs.countP (fun x => vge x (some zl) && vle x (some zu))
  let rejections :=
    (ls.zip cs).countP (fun pr => vle pr.1 (some zu) && vgt pr.2 (some zu))
  touches + timeInZone + rejections * 2

/-- df["resistance_zone_strength"] at row `i`: computed from the
trailing lookback window df[i - lookback : i] for rows from index
`lookback` onward with a valid positive level, 0 otherwise. -/
def resistanceZoneStrengthAt (p : Params) (c : Cols) (i : ℕ) : ℕ :=
  if i < p.lookback_period then 0
  else
    match resistanceAt p c i with
    | none => 0
    | some r =>
      if 0 < r then
        resZoneStrengthOver
          (sliceL c.highs (i - p.lookback_period) p.lookback_period)
          (sliceL c.closes (i - p.lookback_period) p.lookback_period) r
      else 0

/-- df["support_zone_strength"] at row `i`. -/
def supportZoneStrengthAt (p : Params) (c : Cols) (i : ℕ) : ℕ :=
  if i < p.lookback_period then 0
  else
    match supportAt p c i with
    | none => 0
    | some s =>
      if 0 < s then
        supZoneStrengthOver
          (sliceL c.lows (i - p.lookback_period) p.lookback_period)
          (sliceL c.closes (i - p.lookback_period) p.lookback_period) s
      else 0

/-- The 27 boolean pattern columns initialised by
_add_price_action_patterns (all false). -/
structure PatternRow where
  pin_bar_bullish : Bool := false
  pin_bar_bearish : Bool := false
  engulfing_bullish : Bool := false
  engulfing_bearish : Bool := false
  morning_star : Bool := false
  evening_star : Bool := false
  tweezer_bottom : Bool := false
  tweezer_top : Bool := false
  three_white_soldiers : Bool := false
  three_black_crows : Bool := false
  marubozu_bullish : Bool := false
  marubozu_bearish : Bool := false
  doji : Bool := false
  gravestone_doji : Bool := false
  dragonfly_doji : Bool := false
  spinning_top : Bool := false
  spinning_bottom : Bool := false
  inside_bar : Bool := false
  outside_bar : Bool := false
  bullish_flag : Bool := false
  bearish_flag : Bool := false
  bullish_pennant : Bool := false
  bearish_pennant : Bool := false
  bullish_breakout : Bool := false
  bearish_breakout : Bool := false
  bullish_rejection : Bool := false
  bearish_rejection : Bool := false
  deriving Repr, DecidableEq

/-- Read a validated cell as a rational (only used under the pattern
validity guard, where the cell is known to be present). -/
def qv (v : V) : ℚ := v.getD 0

/-- One candle passes the per-value check of the pattern loop:
no OHLC value is NaN or nonpositive.  The OHLC ordering is NOT
checked here, mirroring the source. -/
def candleValid (c : Cols) (j : ℕ) : Bool :=
  vgt (getV c.opens j) (some 0) && vgt (getV c.highs j) (some 0) &&
  vgt (getV c.lows j) (some 0) && vgt (getV c.closes j) (some 0)

/-- valid_data of the pattern loop: the current candle and the three
preceding ones all pass the per-value check. -/
def patternValid (c : Cols) (i : ℕ) : Bool :=
  candleValid c i && candleValid c (i - 1) &&
  candleValid c (i - 2) && candleValid c (i - 3)

/-- The candle at row `i` is actually processed by the pattern loop:
the loop starts at index 3, skips on invalid data, and skips when the
high-low range of the current candle or of either of the two preceding
candles is zero.  (The range of the third-back candle is not checked by
the source.)  The two `continue` statements of the source are folded
into this single guard; both leave every flag of the row false. -/
def patternActive (c : Cols) (i : ℕ) : Bool :=
  decide (3 ≤ i) && patternValid c i &&
  !(decide (qv (getV c.highs i) - qv (getV c.lows i) = 0)) &&
  !(decide (qv (getV c.highs (i - 1)) - qv (getV c.lows (i - 1)) = 0)) &&
  !(decide (qv (getV c.highs (i - 2)) - qv (getV c.lows (i - 2)) = 0))

/-- The pattern flags computed for row `i` by
_add_price_action_patterns; an unprocessed row keeps the all-false
initialisation. -/
def patternsAt (p : Params) (c : Cols) (i : ℕ) : PatternRow :=
  if patternActive c i = false then {}
  else
    let co := qv (getV c.opens i)
    let ch := qv (getV c.highs i)
    let cl := qv (getV c.lows i)
    let cc := qv (getV c.closes i)
    let po := qv (getV c.opens (i - 1))
    let ph := qv (getV c.highs (i - 1))
    let pl := qv (getV c.lows (i - 1))
    let pc := qv (getV c.closes (i - 1))
    let p2o := qv (getV c.opens (i - 2))
    let p2c := qv (getV c.closes (i - 2))
    let c_body := |cc - co|
    let c_range := ch - cl
    let c_upper := ch - max co cc
    let c_lower := min co cc - cl
    let p_body := |pc - po|
    let p_range := ph - pl
    let p2_body := |p2c - p2o|
    -- 1. pin bars
    let pin_bull := decide (c_range * 0.05 < c_body) &&
      decide (c_body * 2.5 < c_lower) && decide (c_upper < c_body * 0.4) &&
      decide (c_range * 0.1 < c_body)
    let pin_bear := decide (c_range * 0.05 < c_body) &&
      decide (c_body * 2.5 < c_upper) && decide (c_lower < c_body * 0.4) &&
      decide (c_range * 0.1 < c_body)
    -- 2. marubozu
    let maru := decide (c_range * 0.9 < c_body)
    let maru_bull := maru && decide (co < cc)
    let maru_bear := maru && !(decide (co < cc))
    -- 3. doji family (an if / elif / else chain)
    let dojiFam := decide (c_body < c_range * 0.1) && decide (0 < c_range)
    let grave := dojiFam && decide (c_range * 0.7 < c_upper) &&
      decide (c_lower < c_range * 0.1)
    let dragon := dojiFam && !grave && decide (c_range * 0.7 < c_lower) &&
      decide (c_upper < c_range * 0.1)
    let plainDoji := dojiFam && !grave && !dragon
    -- 4. spinning top / bottom
    let spin := decide (c_range * 0.1 < c_body) && decide (c_body < c_range * 0.3) &&
      decide (c_body < c_upper) && decide (c_body < c_lower)
    let spin_top := spin && decide (co < cc)
    let spin_bottom := spin && !(decide (co < cc))
    -- 5. engulfing (if / elif)
    let engBodies := decide (0 < p_body) && decide (0 < c_body)
    let eng_bull := engBodies && decide (pc < po) && decide (co < cc) &&
      decide (po < cc) && decide (co < pc) && decide (p_body * 1.1 < c_body)
    let eng_bear := engBodies && !eng_bull && decide (po < pc) && decide (cc < co) &&
      decide (cc < po) && decide (pc < co) && decide (p_body * 1.1 < c_body)
    -- 6. tweezers
    let tw_top := decide (|ch - ph| < (ch + ph) * 0.002) &&
      decide (cc < co) && decide (pc < po) && decide (max co cc * 1.005 ≤ ch)
    let tw_bottom := decide (|cl - pl| < (cl + pl) * 0.002) &&
      decide (co < cc) && decide (po < pc) && decide (cl ≤ min co cc * 0.995)
    -- 7./8. morning and evening star
    let morning := decide (p2c < p2o) && decide (p_body < p2_body * 0.5) &&
      decide (co < cc) && decide ((p2o + p2c) / 2 < cc)
    let evening := decide (p2o < p2c) && decide (p_body < p2_body * 0.5) &&
      decide (cc < co) && decide (cc < (p2o + p2c) / 2)
    -- 9./10. three white soldiers and three black crows
    let tws := decide (p2o < p2c) && decide (po < pc) && decide (co < cc) &&
      decide (pc < cc) && decide (p2c < pc) &&
      decide (po * 0.995 < co) && decide (p2o * 0.995 < po) &&
      decide (c_range * 0.6 < c_body) && decide (p_range * 0.6 < p_body)
    let tbc := decide (p2c < p2o) && decide (pc < po) && decide (cc < co) &&
      decide (cc < pc) && decide (pc < p2c) &&
      decide (co < po * 1.005) && decide (po < p2o * 1.005) &&
      decide (c_range * 0.6 < c_body) && decide (p_range * 0.6 < p_body)
    -- 11./12. inside and outside bar
    let inside := decide (ch < ph) && decide (pl < cl)
    let outside := decide (ph < ch) && decide (cl < pl) && decide (p_body < c_body)
    -- 13. flags (5-candle consolidation after a prior move)
    let flagHigh := vListMax (sliceL c.highs (i - 4) 5)
    let flagLow := vListMin (sliceL c.lows (i - 4) 5)
    let trendClose := getV c.closes (if 7 ≤ i then i - 7 else 0)
    let preFlagMove := vdiv (vsub (some pc) trendClose) trendClose
    let flagRange := vsub flagHigh flagLow
    let flagGuard := decide (5 ≤ i) && vgt (vabs preFlagMove) (some 0.02) &&
      vlt flagRange (vmul (vabs (vmul preFlagMove (some pc))) (some 0.5))
    let bullFlagInner := vgt preFlagMove (some 0) && decide (co < cc) &&
      vlt flagHigh (some cc)
    let bull_flag := flagGuard && bullFlagInner
    let bear_flag := flagGuard && !bullFlagInner && vlt preFlagMove (some 0) &&
      decide (cc < co) && vgt flagLow (some cc)
    -- 14. pennants (6-candle contraction after a prior move)
    let pennHigh := vListMax (sliceL c.highs (i - 5) 6)
    let pennLow := vListMin (sliceL c.lows (i - 5) 6)
    let earlyRange := vsub (getV c.highs (i - 5)) (getV c.lows (i - 5))
    let recentRange := vsub (getV c.highs (i - 1)) (getV c.lows (i - 1))
    let trendClose2 := getV c.closes (if 9 ≤ i then i - 9 else 0)
    let prePennant := vdiv (vsub (getV c.closes (i - 5)) trendClose2) trendClose2
    let pennGuard := decide (6 ≤ i) &&
      vlt recentRange (vmul earlyRange (some 0.7)) &&
      vgt (vabs prePennant) (some 0.02)
    let bullPennInner := vgt prePennant (some 0) && decide (co < cc) &&
      vlt pennHigh (some cc)
    let bull_pennant := pennGuard && bullPennInner
    let bear_pennant := pennGuard && !bullPennInner && vlt prePennant (some 0) &&
      decide (cc < co) && vgt pennLow (some cc)
    -- 15. zone rejections
    let inSup := inSupportZoneAt p c i
    let inRes := inResistanceZoneAt p c i
    let strongBounce := decide (cl ≤ pl) && decide (co < cc) &&
      decide (c_range * 0.6 < c_body)
    let bull_rej := inSup &&
      (pin_bull || eng_bull || tw_bottom || morning || dragon || strongBounce)
    let strongRejection := decide (ph ≤ ch) && decide (cc < co) &&
      decide (c_range * 0.6 < c_body)
    let bear_rej := inRes &&
      (pin_bear || eng_bear || tw_top || evening || grave || strongRejection)
    -- 16. breakout confirmation
    let res := resistanceAt p c i
    let sup := supportAt p c i
    let vr := volumeRatioAt p c i
    let strongBreakout := vgt (some cc) (vmul res (some 1.003)) &&
      decide (co < cc) && decide (c_range * 0.7 < c_body) && vgt vr (some 1.3)
    let bull_brk := vgt res (some 0) &&
      (maru_bull || eng_bull || tws || bull_flag || bull_pennant || strongBreakout)
    let strongBreakdown := vlt (some cc) (vmul sup (some 0.997)) &&
      decide (cc < co) && decide (c_range * 0.7 < c_body) && vgt vr (some 1.3)
    let bear_brk := vgt sup (some 0) &&
      (maru_bear || eng_bear || tbc || bear_flag || bear_pennant || strongBreakdown)
    { pin_bar_bullish := pin_bull
      pin_bar_bearish := pin_bear
      engulfing_bullish := eng_bull
      engulfing_bearish := eng_bear
      morning_star := morning
      evening_star := evening
      tweezer_bottom := tw_bottom
      tweezer_top := tw_top
      three_white_soldiers := tws
      three_black_crows := tbc
      marubozu_bullish := maru_bull
      marubozu_bearish := maru_bear
      doji := plainDoji
      gravestone_doji := grave
      dragonfly_doji := dragon
      spinning_top := spin_top
      spinning_bottom := spin_bottom
      inside_bar := inside
      outside_bar := outside
      bullish_flag := bull_flag
      bearish_flag := bear_flag
      bullish_pennant := bull_pennant
      bearish_pennant := bear_pennant
      bullish_breakout := bull_brk
      bearish_breakout := bear_brk
      bullish_rejection := bull_rej
      bearish_rejection := bear_rej }

/-- One accumulated reason: the fixed text of the source f-string plus
its numeric payload (zone strength, level or momentum), which is what
the formatted string interpolates. -/
abbrev Reason := String × List ℚ

/-- The buy and sell scores of one candle together with the reason
list accumulated in source order. -/
structure ScoreResult where
  buy_score : ℕ
  sell_score : ℕ
  reasons : List Reason
  deriving Repr, DecidableEq

/-- First detected pattern of a fixed priority list (the
anti-double-counting rule: only the first match contributes). -/
def firstMatch (pats : List (String × Bool × ℕ)) : Option (String × ℕ) :=
  match pats.find? (fun t => t.2.1) with
  | some (n, _, w) => some (n, w)
  | none => none

/-- The score accumulation of _generate_price_action_signals for one
candle row, mirroring the source condition groups in order:
support-zone reversal, resistance breakout with volume bonus,
continuation, momentum for the buy side; then the mirrored sell side. -/
def scoresAt (p : Params) (c : Cols) (i : ℕ) : ScoreResult :=
  let cur := patternsAt p c i
  let prevPat := patternsAt p c (i - 1)
  let close := getV c.closes i
  let opn := getV c.opens i
  let res := resistanceAt p c i
  let sup := supportAt p c i
  let rStr := resistanceZoneStrengthAt p c i
  let sStr := supportZoneStrengthAt p c i
  let inStrongRes := inResistanceZoneAt p c i && decide (min_zone_strength ≤ rStr)
  let inStrongSup := inSupportZoneAt p c i && decide (min_zone_strength ≤ sStr)
  let mo := priceMomentumAt p c i
  let vr := volumeRatioAt p c i
  -- BUY condition 1: support zone rejection
  let buyRev : ℕ × List Reason :=
    if inStrongSup then
      let base : ℕ × List Reason :=
        match firstMatch
          [("Strong Bullish Rejection", cur.bullish_rejection, 5),
           ("Bullish Pin Bar", cur.pin_bar_bullish, 4),
           ("Bullish Engulfing", cur.engulfing_bullish, 4),
           ("Morning Star", cur.morning_star, 5),
           ("Tweezer Bottom", cur.tweezer_bottom, 4),
           ("Dragonfly Doji", cur.dragonfly_doji, 3),
           ("Three White Soldiers", cur.three_white_soldiers, 5),
           ("Bullish Marubozu", cur.marubozu_bullish, 4)] with
        | some (n, w) => (w, [(n ++ " at Support Zone", [(sStr : ℚ)])])
        | none => (0, [])
      let spin : ℕ × List Reason :=
        if cur.spinning_top then
          (2, [("Bullish Spinning Top at Support", [(sStr : ℚ)])])
        else (0, [])
      (base.1 + spin.1, base.2 ++ spin.2)
    else (0, [])
  -- BUY condition 2: resistance breakout
  let buyBrk : ℕ × List Reason :=
    if vgt res (some 0) then
      let base : ℕ × List Reason :=
        match firstMatch
          [("Strong Resistance Breakout", cur.bullish_breakout, 5),
           ("Bullish Flag Breakout", cur.bullish_flag, 5),
           ("Bullish Pennant Breakout", cur.bullish_pennant, 5),
           ("Bullish Marubozu Breakout", cur.marubozu_bullish, 4),
           ("Three White Soldiers Breakout", cur.three_white_soldiers, 5)] with
        | some (n, w) => (w, [(n, [qv res])])
        | none => (0, [])
      let volC : ℕ × List Reason :=
        if vgt close (vmul res (some 1.003)) && vgt close opn &&
            vgt vr (some 1.5) then
          (4, [("Volume-Confirmed Resistance Break", [qv res])])
        else (0, [])
      (base.1 + volC.1, base.2 ++ volC.2)
    else (0, [])
  -- BUY condition 3: trend continuation (all matches counted)
  let buyCont : ℕ × List Reason :=
    let c1 : ℕ × List Reason :=
      if cur.inside_bar && prevPat.bullish_breakout then
        (3, [("Inside Bar Breakout", [])]) else (0, [])
    let c2 : ℕ × List Reason :=
      if cur.outside_bar && vgt close opn then
        (3, [("Outside Bar Bullish", [])]) else (0, [])
    (c1.1 + c2.1, c1.2 ++ c2.2)
  -- BUY condition 3 bis: momentum with zone confirmation
  let buyMom : ℕ × List Reason :=
    if !(vIsNa mo) && vgt mo (some 0.012) then
      if vlt (distFromSupportAt p c i) (some 0.035) then
        (2, [("Strong Momentum near Support", [qv mo])])
      else if inSupportZoneAt p c (i - 1) && !(inSupportZoneAt p c i) &&
          vgt close (getV c.closes (i - 1)) then
        (3, [("Momentum Continuation after Support Bounce", [qv mo])])
      else (0, [])
    else (0, [])
  -- SELL condition 1: resistance zone rejection
  let sellRev : ℕ × List Reason :=
    if inStrongRes then
      let base : ℕ × List Reason :=
        match firstMatch
          [("Strong Bearish Rejection", cur.bearish_rejection, 5),
           ("Bearish Pin Bar", cur.pin_bar_bearish, 4),
           ("Bearish Engulfing", cur.engulfing_bearish, 4),
           ("Evening Star", cur.evening_star, 5),
           ("Tweezer Top", cur.tweezer_top, 4),
           ("Gravestone Doji", cur.gravestone_doji, 3),
           ("Three Black Crows", cur.three_black_crows, 5),
           ("Bearish Marubozu", cur.marubozu_bearish, 4)] with
        | some (n, w) => (w, [(n ++ " at Resistance Zone", [(rStr : ℚ)])])
        | none => (0, [])
      let spin : ℕ × List Reason :=
        if cur.spinning_bottom then
          (2, [("Bearish Spinning Bottom at Resistance", [(rStr : ℚ)])])
        else (0, [])
      (base.1 + spin.1, base.2 ++ spin.2)
    else (0, [])
  -- SELL condition 2: support breakdown
  let sellBrk : ℕ × List Reason :=
    if vgt sup (some 0) then
      let base : ℕ × List Reason :=
        match firstMatch
          [("Strong Support Breakdown", cur.bearish_breakout, 5),
           ("Bearish Flag Breakdown", cur.bearish_flag, 5),
           ("Bearish Pennant Breakdown", cur.bearish_pennant, 5),
           ("Bearish Marubozu Breakdown", cur.marubozu_bearish, 4),
           ("Three Black Crows Breakdown", cur.three_black_crows, 5)] with
        | some (n, w) => (w, [(n, [qv sup])])
        | none => (0, [])
      let volC : ℕ × List Reason :=
        if vlt close (vmul sup (some 0.997)) && vlt close opn &&
            vgt vr (some 1.5) then
          (4, [("Volume-Confirmed Support Break", [qv sup])])
        else (0, [])
      (base.1 + volC.1, base.2 ++ volC.2)
    else (0, [])
  -- SELL condition 3: trend continuation
  let sellCont : ℕ × List Reason :=
    let c1 : ℕ × List Reason :=
      if cur.inside_bar && prevPat.bearish_breakout then
        (3, [("Inside Bar Breakdown", [])]) else (0, [])
    let c2 : ℕ × List Reason :=
      if cur.outside_bar && vlt close opn then
        (3, [("Outside Bar Bearish", [])]) else (0, [])
    (c1.1 + c2.1, c1.2 ++ c2.2)
  -- SELL condition 3 bis: momentum with zone confirmation
  let sellMom : ℕ × List Reason :=
    if !(vIsNa mo) && vlt mo (some (-0.012)) then
      if vlt (distFromResistanceAt p c i) (some 0.025) then
        (2, [("Strong Negative Momentum near Resistance", [qv mo])])
      else if inResistanceZoneAt p c (i - 1) && !(inResistanceZoneAt p c i) &&
          vlt close (getV c.closes (i - 1)) then
        (3, [("Momentum Continuation after Resistance Rejection", [qv mo])])
      else (0, [])
    else (0, [])
  { buy_score := buyRev.1 + buyBrk.1 + buyCont.1 + buyMom.1,
    sell_score := sellRev.1 + sellBrk.1 + sellCont.1 + sellMom.1,
    reasons := buyRev.2 ++ buyBrk.2 ++ buyCont.2 ++ buyMom.2 ++
      sellRev.2 ++ sellBrk.2 ++ sellCont.2 ++ sellMom.2 }

/-- One row of the signal columns. -/
structure SignalRow where
  buy_signal : Bool
  sell_signal : Bool
  hold_signal : Bool
  signal_strength : ℕ
  signal_reason : List Reason
  deriving Repr, DecidableEq

/-- The initialisation of the signal columns: HOLD, strength 0, empty
reason. -/
def initSignalRow : SignalRow := ⟨false, false, true, 0, []⟩

/-- The final decision block of _generate_price_action_signals: BUY on
minimum strength and a margin of more than one over the sell score,
SELL symmetrically via the elif, otherwise keep the HOLD default. -/
def decideRow (buy_score sell_score : ℕ) (reasons : List Reason) : SignalRow :=
  if min_signal_strength ≤ buy_score ∧ sell_score + 1 < buy_score then
    ⟨true, false, false, buy_score, reasons⟩
  else if min_signal_strength ≤ sell_score ∧ buy_score + 1 < sell_score then
    ⟨false, true, false, sell_score, reasons⟩
  else initSignalRow

/-- The critical-data skip of the scoring loop: the row is skipped
when close, resistance or support is NaN or negative (the source test
val ≤ 0 and val ≠ 0 admits zero). -/
def negOrNa (v : V) : Bool :=
  match v with
  | none => true
  | some x => decide (x < 0)

/-- A row of the scoring loop is skipped over. -/
def scoringSkipAt (p : Params) (c : Cols) (i : ℕ) : Bool :=
  negOrNa (getV c.closes i) || negOrNa (resistanceAt p c i) ||
  negOrNa (supportAt p c i)

/-- The signal columns at row `i`: rows before
max(lookback, momentum_window, 10) and skipped rows keep the
initialisation; decided rows apply the decision rule to the
accumulated scores. -/
def signalRowAt (p : Params) (c : Cols) (i : ℕ) : SignalRow :=
  if i < max (max p.lookback_period p.momentum_window) 10 then initSignalRow
  else if scoringSkipAt p c i then initSignalRow
  else
    let s := scoresAt p c i
    decideRow s.buy_score s.sell_score s.reasons

/-- One entry of the bounded signal history kept by the strategy
instance. -/
structure HistoryEntry where
  timestamp : ℚ
  signal : String
  price : ℚ
  momentum : ℚ
  signal_strength : ℕ
  signal_reason : List Reason
  deriving Repr, DecidableEq

/-- The mutable state of a strategy instance threaded through
get_signal: the warning counter, the bounded signal history and the
last emitted signal. -/
structure StratState where
  warning_count : ℕ
  signal_history : List HistoryEntry
  last_signal : Option String
  deriving Repr, DecidableEq

/-- Append to the capacity-100 history deque, evicting the oldest
entries on overflow. -/
def pushHistory (h : List HistoryEntry) (e : HistoryEntry) : List HistoryEntry :=
  let h2 := h ++ [e]
  if 100 < h2.length then h2.drop (h2.length - 100) else h2

/-- Number of columns of pd.DataFrame built from a list of records:
the maximal record length (shorter records are padded with NaN). -/
def numCols (klines : List (List V)) : ℕ :=
  klines.foldr (fun r m => max r.length m) 0

/-- Column `j` of the dataframe built from the raw records; absent
cells read as NaN. -/
def colOf (klines : List (List V)) (j : ℕ) : List V :=
  klines.map (fun r => r.getD j none)

/-- The five OHLCV columns after the get_signal cleaning pass
(to_numeric coercion is the identity on the embedded cells; a column
containing NaN is interpolated, backfilled and forward filled). -/
def rawCols (klines : List (List V)) : Cols :=
  { opens := naClean (colOf klines 1)
    highs := naClean (colOf klines 2)
    lows := naClean (colOf klines 3)
    closes := naClean (colOf klines 4)
    volumes := naClean (colOf klines 5) }

/-- df[numeric_columns].isna().any().any() after cleaning. -/
def hasNaRemaining (c : Cols) : Bool :=
  c.opens.any (·.isNone) || c.highs.any (·.isNone) || c.lows.any (·.isNone) ||
  c.closes.any (·.isNone) || c.volumes.any (·.isNone)

/-- The cleaning pass at the top of add_indicators: interpolate NaN
closes, then re-interpolate every price column containing a value ≤ 0
after turning exact zeros into NaN.  Volume is not cleaned here and
negative prices are left in place (replace(0, nan) only hits zeros). -/
def indicatorClean (c : Cols) : Cols :=
  { opens := nonposClean c.opens
    highs := nonposClean c.highs
    lows := nonposClean c.lows
    closes := nonposClean (naClean c.closes)
    volumes := c.volumes }

/-- The cleaned and enriched columns get_signal works on. -/
def pipelineCols (klines : List (List V)) : Cols :=
  indicatorClean (rawCols klines)

/-- PurePriceActionStrategy.get_signal: validates the window length
and the column count, cleans the numeric columns, fails on remaining
NaNs, enriches, reads the last row, emits one of BUY, SELL or HOLD,
and appends a history entry when timestamp, price and momentum are all
present.  The exception handler of the source cannot fire in the total
embedding; every failure path returns none exactly as the source
returns None. -/
def getSignal (p : Params) (st : StratState) (klines : List (List V)) :
    Option String × StratState :=
  let min_required :=
    max (max p.lookback_period p.volatility_window) p.momentum_window + 5
  if klines.length < min_required then
    (none, { st with warning_count := st.warning_count + 1 })
  else if numCols klines ≠ 12 then (none, st)
  else
    let raw := rawCols klines
    if hasNaRemaining raw then (none, st)
    else
      let c := indicatorClean raw
      let n := klines.length
      if n < 2 then (none, st)
      else
        let row := signalRowAt p c (n - 1)
        let signal : String :=
          if row.buy_signal then "BUY"
          else if row.sell_signal then "SELL"
          else "HOLD"
        let ts := getV (colOf klines 0) (n - 1)
        let cp := getV c.closes (n - 1)
        let mo := priceMomentumAt p c (n - 1)
        let st1 :=
          match ts, cp, mo with
          | some t, some cv, some mv =>
            { st with
              signal_history := pushHistory st.signal_history
                ⟨t, signal, cv, mv, row.signal_strength, row.signal_reason⟩
              last_signal := some signal }
          | _, _, _ => { st with last_signal := some signal }
        (some signal, st1)

/-- Small parameter set (lookback 2) used by the concrete witnesses
and counterexamples; every tuning value is strictly positive, as the
constructor requires. -/
def pSmall : Params :=
  { lookback_period := 2, breakout_threshold := 1, volatility_window := 14,
    momentum_window := 10, sr_strength := 3 }

/-- Three-candle window for the zone strength witness. -/
def cZone : Cols :=
  { opens := [some 50, some 99, some 89]
    highs := [some 100, some 100, some 90]
    lows := [some 50, some 98, some 80]
    closes := [some 50, some 100, some 85]
    volumes := [some 10, some 10, some 10] }

/-- Four-candle window whose resistance zone at the last row has
strength 3 (one touch plus one rejection inside the 100-level band). -/
def cNine : Cols :=
  { opens := [some 49, some 99, some 89, some 99]
    highs := [some 50, some 100, some 90, some 100]
    lows := [some 48, some 50, some 79, some 98]
    closes := [some 49, some 50, some 80, some 100]
    volumes := [some 10, some 10, some 10, some 10] }

/-- The same window with one appended candle whose high lies inside
the resistance band of the new evaluation row (a touch-qualifying
synthetic candle). -/
def cNineExt : Cols :=
  { opens := cNine.opens ++ [some 99]
    highs := cNine.highs ++ [some 100]
    lows := cNine.lows ++ [some 98]
    closes := cNine.closes ++ [some 100]
    volumes := cNine.volumes ++ [some 10] }

/-- Raw kline records (12 fields each) whose candle at index 3 has all
positive prices but violates the OHLC ordering: close 20 above
high 14.  All other rows are well formed, so both cleaning passes
leave the data untouched. -/
def kFour : List (List V) :=
  [[some 1, some 10, some 12, some 9, some 11, some 5, some 1, some 1, some 1, some 1, some 1, some 0],
   [some 2, some 10, some 12, some 9, some 11, some 5, some 1, some 1, some 1, some 1, some 1, some 0],
   [some 3, some 10, some 12, some 9, some 11, some 5, some 1, some 1, some 1, some 1, some 1, some 0],
   [some 4, some 10, some 14, some 10, some 20, some 5, some 1, some 1, some 1, some 1, some 1, some 0],
   [some 5, some 10, some 12, some 9, some 11, some 5, some 1, some 1, some 1, some 1, some 1, some 0],
   [some 6, some 10, some 12, some 9, some 11, some 5, some 1, some 1, some 1, some 1, some 1, some 0],
   [some 7, some 10, some 12, some 9, some 11, some 5, some 1, some 1, some 1, some 1, some 1, some 0],
   [some 8, some 10, some 12, some 9, some 11, some 5, some 1, some 1, some 1, some 1, some 1, some 0]]

/-- A window whose candle at index 1 has a zero (nonpositive) open;
the pattern loop must skip index 3. -/
def cInvalid : Cols :=
  { opens := [some 10, some 0, some 10, some 10]
    highs := [some 12, some 12, some 12, some 12]
    lows := [some 9, some 9, some 9, some 9]
    closes := [some 11, some 11, some 11, some 11]
    volumes := [some 5, some 5, some 5, some 5] }

/-- Eleven identical well-formed candles: enough rows for the scoring
loop (which starts at max(lookback, momentum_window, 10) = 10 for
`pSmall`) to reach its decision stage at the last row. -/
def cEleven : Cols :=
  { opens := List.replicate 11 (some 10)
    highs := List.replicate 11 (some 12)
    lows := List.replicate 11 (some 9)
    closes := List.replicate 11 (some 11)
    volumes := List.replicate 11 (some 5) }

/-- A window whose third-back candle (index 0) has a zero high-low
range while the current candle at index 3 is a plain doji; the source
checks only the ranges of the current and two preceding candles, so
index 3 is still processed. -/
def cFive : Cols :=
  { opens := [some 10, some 10, some 10, some 10]
    highs := [some 10, some 12, some 12, some 12]
    lows := [some 10, some 9, some 9, some 9]
    closes := [some 10, some 11, some 11, some 10.1]
    volumes := [some 5, some 5, some 5, some 5] }

/-- C1: for every candle row that reaches the decision stage, BUY is
emitted iff the buy score meets the minimum signal strength (3) and
exceeds the sell score by more than one; SELL holds under the
symmetric condition (the elif of the source is equivalent because the
two margin conditions exclude each other); every other case, including
the tie buy = sell = 3 at the threshold, stays HOLD. -/
theorem decision_rule_buy_sell_hold (b s : ℕ) (rs : List Reason) :
    ((decideRow b s rs).buy_signal = true ↔
      min_signal_strength ≤ b ∧ s + 1 < b) ∧
    ((decideRow b s rs).sell_signal = true ↔
      min_signal_strength ≤ s ∧ b + 1 < s) ∧
    ((decideRow b s rs).hold_signal = true ↔
      ¬(min_signal_strength ≤ b ∧ s + 1 < b) ∧
      ¬(min_signal_strength ≤ s ∧ b + 1 < s)) ∧
    decideRow 3 3 rs = initSignalRow ∧
    (∀ (p : Params) (c : Cols) (i : ℕ),
      max (max p.lookback_period p.momentum_window) 10 ≤ i →
      scoringSkipAt p c i = false →
      signalRowAt p c i = decideRow (scoresAt p c i).buy_score
        (scoresAt p c i).sell_score (scoresAt p c i).reasons) := by
  refine ⟨?_, ?_, ?_, ?_, ?_⟩
  · unfold decideRow min_signal_strength
    split_ifs <;> simp_all [initSignalRow] <;> omega
  · unfold decideRow min_signal_strength
    split_ifs <;> simp_all [initSignalRow] <;> omega
  · unfold decideRow min_signal_strength
    split_ifs <;> simp_all [initSignalRow] <;> omega
  · norm_num [decideRow, min_signal_strength]
  · intro p c i hstart hskip
    unfold signalRowAt
    rw [if_neg (Nat.not_lt.mpr hstart), if_neg (by simp [hskip])]

/-- Witness for C1: the last row of an eleven-candle window reaches
the decision stage and its signal row is exactly the decision rule
applied to the accumulated scores. -/
theorem decision_rule_buy_sell_hold_witness :
    signalRowAt pSmall cEleven 10 =
      decideRow (scoresAt pSmall cEleven 10).buy_score
        (scoresAt pSmall cEleven 10).sell_score
        (scoresAt pSmall cEleven 10).reasons :=
  (decision_rule_buy_sell_hold 0 0 []).2.2.2.2 pSmall cEleven 10
    (by decide) (of_decide_eq_true (by with_unfolding_all rfl))

/-- Helper: the decision block always produces a row whose hold flag
complements buy-or-sell and never sets buy and sell together. -/
theorem decideRow_flags (b s : ℕ) (rs : List Reason) :
    ((decideRow b s rs).hold_signal =
      !((decideRow b s rs).buy_signal || (decideRow b s rs).sell_signal)) ∧
    ¬((decideRow b s rs).buy_signal = true ∧
      (decideRow b s rs).sell_signal = true) := by
  unfold decideRow
  split_ifs <;> simp [initSignalRow]

/-- C2: for every row of the enriched table, the hold flag is the
complement of buy-or-sell and the buy and sell flags are never set
together, so exactly one of the three flags is true. -/
theorem signal_flags_exclusive (p : Params) (c : Cols) (i : ℕ) :
    ((signalRowAt p c i).hold_signal =
      !((signalRowAt p c i).buy_signal || (signalRowAt p c i).sell_signal)) ∧
    ¬((signalRowAt p c i).buy_signal = true ∧
      (signalRowAt p c i).sell_signal = true) := by
  unfold signalRowAt
  split_ifs
  · simp [initSignalRow]
  · simp [initSignalRow]
  · exact decideRow_flags _ _ _

/-- C6: the momentum helper returns exactly the window rate of change
with zero on short history or a zero divisor, and the volatility
helper (embedded squared, see the header) is exactly the population
variance of the simple returns over the trailing window, with zero on
short history or when no valid return exists. -/
theorem momentum_volatility_spec (prices : List ℚ) (window : ℕ)
    (hw : 0 < window) :
    (prices.length < window + 1 → calculate_price_momentum prices window = 0) ∧
    (prices.getD (prices.length - window - 1) 0 = 0 →
      calculate_price_momentum prices window = 0) ∧
    (window + 1 ≤ prices.length →
      prices.getD (prices.length - window - 1) 0 ≠ 0 →
      calculate_price_momentum prices window =
        (prices.getD (prices.length - 1) 0 -
          prices.getD (prices.length - window - 1) 0) /
          prices.getD (prices.length - window - 1) 0) ∧
    (prices.length < window → calculate_volatility_sq prices window = 0) ∧
    (simpleReturns (prices.drop (prices.length - window)) = [] →
      calculate_volatility_sq prices window = 0) ∧
    (window ≤ prices.length →
      simpleReturns (prices.drop (prices.length - window)) ≠ [] →
      calculate_volatility_sq prices window =
        popVariance (simpleReturns (prices.drop (prices.length - window)))) := by
  unfold calculate_price_momentum calculate_volatility_sq
  refine ⟨?_, ?_, ?_, ?_, ?_, ?_⟩ <;> intros <;> split_ifs <;> simp_all <;> omega

/-- Witness for C6 at concrete inputs: a two-price series is too short
for window 5 (both helpers return 0), and at window 1 the momentum is
the exact rate of change (2 - 1) / 1 = 1. -/
theorem momentum_volatility_spec_witness :
    calculate_price_momentum [1, 2] 5 = 0 ∧
    calculate_volatility_sq [1, 2] 5 = 0 ∧
    calculate_price_momentum [1, 2] 1 = 1 := by
  have h5 := momentum_volatility_spec [1, 2] 5 (by norm_num)
  have h1 := momentum_volatility_spec [1, 2] 1 (by norm_num)
  refine ⟨h5.1 (by norm_num), h5.2.2.2.1 (by norm_num), ?_⟩
  have h := h1.2.2.1 (by norm_num) (by norm_num)
  simp at h
  rw [h]
  norm_num

/-- C3: for every candle from index lookback onward with a valid
positive level, the zone strength equals touches plus time-in-zone
plus twice the rejections, where touches counts highs (resistance) or
lows (support) inside the band [level * (1 - w), level * (1 + w)] over
the trailing lookback window, time-in-zone counts closes inside the
band, and rejections counts candles that reached the band and closed
beyond it on the rejecting side; as a count it is nonnegative. -/
theorem zone_strength_eq_touches_time_rejections (p : Params) (c : Cols)
    (i : ℕ) (hiL : p.lookback_period ≤ i) :
    (∀ r : ℚ, resistanceAt p c i = some r → 0 < r →
      resistanceZoneStrengthAt p c i =
      (sliceL c.highs (i - p.lookback_period) p.lookback_period).countP
        (fun h => vge h (some (r * (1 - zoneWidth))) &&
          vle h (some (r * (1 + zoneWidth)))) +
      (sliceL c.closes (i - p.lookback_period) p.lookback_period).countP
        (fun x => vge x (some (r * (1 - zoneWidth))) &&
          vle x (some (r * (1 + zoneWidth)))) +
      2 * ((sliceL c.highs (i - p.lookback_period) p.lookback_period).zip
          (sliceL c.closes (i - p.lookback_period) p.lookback_period)).countP
        (fun pr => vge pr.1 (some (r * (1 - zoneWidth))) &&
          vlt pr.2 (some (r * (1 - zoneWidth))))) ∧
    (∀ s : ℚ, supportAt p c i = some s → 0 < s →
      supportZoneStrengthAt p c i =
      (sliceL c.lows (i - p.lookback_period) p.lookback_period).countP
        (fun l => vge l (some (s * (1 - zoneWidth))) &&
          vle l (some (s * (1 + zoneWidth)))) +
      (sliceL c.closes (i - p.lookback_period) p.lookback_period).countP
        (fun x => vge x (some (s * (1 - zoneWidth))) &&
          vle x (some (s * (1 + zoneWidth)))) +
      2 * ((sliceL c.lows (i - p.lookback_period) p.lookback_period).zip
          (sliceL c.closes (i - p.lookback_period) p.lookback_period)).countP
        (fun pr => vle pr.1 (some (s * (1 + zoneWidth))) &&
          vgt pr.2 (some (s * (1 + zoneWidth))))) ∧
    0 ≤ resistanceZoneStrengthAt p c i ∧ 0 ≤ supportZoneStrengthAt p c i := by
  have h1 : ¬ i < p.lookback_period := Nat.not_lt.mpr hiL
  refine ⟨?_, ?_, Nat.zero_le _, Nat.zero_le _⟩
  · intro r hr hrpos
    simp only [resistanceZoneStrengthAt, hr, if_neg h1, if_pos hrpos,
      resZoneStrengthOver]
    omega
  · intro s hs hspos
    simp only [supportZoneStrengthAt, hs, if_neg h1, if_pos hspos,
      supZoneStrengthOver]
    omega

/-- Witness for C3 on a concrete three-candle window with lookback 2:
the resistance level 100 has two touches, one close in zone and one
rejection, hence strength 5; the support level 80 has no
interactions, hence strength 0. -/
theorem zone_strength_eq_witness :
    resistanceZoneStrengthAt pSmall cZone 2 = 5 ∧
    supportZoneStrengthAt pSmall cZone 2 = 0 := by
  have h := zone_strength_eq_touches_time_rejections pSmall cZone 2 (by decide)
  exact ⟨(h.1 100 (of_decide_eq_true (by with_unfolding_all rfl))
      (by norm_num)).trans (of_decide_eq_true (by with_unfolding_all rfl)),
    (h.2.1 80 (of_decide_eq_true (by with_unfolding_all rfl))
      (by norm_num)).trans (of_decide_eq_true (by with_unfolding_all rfl))⟩

/-- Counterexample to C9: appending a touch-qualifying synthetic
candle and evaluating at the new last row DECREASES the computed zone
strength (from 3 to 2), because the fixed-length trailing window
excludes the appended candle itself and drops the oldest candle, here
a rejection worth 3. -/
theorem append_touch_can_decrease_strength :
    (cNineExt.highs = cNine.highs ++ [some 100] ∧
     cNineExt.closes = cNine.closes ++ [some 100]) ∧
    (vge (getV cNineExt.highs 4) (resZoneLowerAt pSmall cNineExt 4) = true ∧
     vle (getV cNineExt.highs 4) (resZoneUpperAt pSmall cNineExt 4) = true) ∧
    resistanceZoneStrengthAt pSmall cNineExt 4 <
      resistanceZoneStrengthAt pSmall cNine 3 :=
  of_decide_eq_true (by with_unfolding_all rfl)

/-- C9 amended: zone strength is monotone in the counted window: for a
fixed level, enlarging the trailing window by any candle (in
particular a touch-qualifying one) never decreases the strength
computed over that window, on both the resistance and the support
side. -/
theorem zone_strength_monotone_in_window (hs cs : List V) (h c : V)
    (r s : ℚ) (hlen : hs.length = cs.length) :
    resZoneStrengthOver hs cs r ≤ resZoneStrengthOver (hs ++ [h]) (cs ++ [c]) r ∧
    supZoneStrengthOver hs cs s ≤ supZoneStrengthOver (hs ++ [h]) (cs ++ [c]) s := by
  have hzip : (hs ++ [h]).zip (cs ++ [c]) = hs.zip cs ++ [(h, c)] := by
    rw [List.zip_append hlen]
    rfl
  constructor
  · simp only [resZoneStrengthOver, hzip, List.countP_append]
    omega
  · simp only [supZoneStrengthOver, hzip, List.countP_append]
    omega

/-- Witness for the amended C9 at a concrete window: appending the
touch candle high 100 close 100 to the window of `cNine` does not
decrease either strength. -/
theorem zone_strength_monotone_witness :
    resZoneStrengthOver [some 100, some 90] [some 50, some 80] 100 ≤
      resZoneStrengthOver ([some 100, some 90] ++ [some 100])
        ([some 50, some 80] ++ [some 100]) 100 ∧
    supZoneStrengthOver [some 100, some 90] [some 50, some 80] 80 ≤
      supZoneStrengthOver ([some 100, some 90] ++ [some 100])
        ([some 50, some 80] ++ [some 100]) 80 :=
  zone_strength_monotone_in_window [some 100, some 90] [some 50, some 80]
    (some 100) (some 100) 100 80 (by decide)

/-- Counterexample to C4: after both cleaning passes the candle at
index 3 of `kFour` still has close 20 above high 14 (the cleaning only
repairs NaN and zero prices, never the OHLC ordering), and the pattern
engine still sets a flag on it (a bullish marubozu), so an
ordering-violating candle does reach the pattern engine flagged. -/
theorem ohlc_invariant_not_enforced :
    (getV (pipelineCols kFour).highs 3 = some 14 ∧
     getV (pipelineCols kFour).closes 3 = some 20 ∧
     vle (getV (pipelineCols kFour).closes 3)
       (getV (pipelineCols kFour).highs 3) = false) ∧
    (patternsAt pSmall (pipelineCols kFour) 3).marubozu_bullish = true :=
  of_decide_eq_true (by with_unfolding_all rfl)

/-- C4 amended: the pattern engine never computes flags on a candle
whose four-candle window contains a NaN or nonpositive price (every
flag of the row stays false); the OHLC ordering itself is not
validated by the cleaning pass or the pattern engine. -/
theorem pattern_engine_skips_invalid_values (p : Params) (c : Cols) (i : ℕ)
    (h : patternValid c i = false) : patternsAt p c i = {} := by
  unfold patternsAt patternActive
  simp [h]

/-- Witness for the amended C4: the zero open at index 1 of `cInvalid`
makes the pattern loop skip index 3 entirely. -/
theorem pattern_engine_skips_invalid_values_witness :
    patternsAt pSmall cInvalid 3 = {} :=
  pattern_engine_skips_invalid_values pSmall cInvalid 3 (by decide)

/-- Counterexample to C5: the third-back candle of `cFive` has a zero
high-low range, yet the candle at index 3 is processed and flagged as
a doji; the source checks only the ranges of the current and two
preceding candles, and validates values (NaN or nonpositive), not the
OHLC ordering. -/
theorem zero_range_lookback_candle_not_skipped :
    vsub (getV cFive.highs 0) (getV cFive.lows 0) = some 0 ∧
    (patternsAt pSmall cFive 3).doji = true :=
  of_decide_eq_true (by with_unfolding_all rfl)

/-- C5 amended: the pattern engine processes candles from index 3
onward only, and it skips a candle (every flag stays false) whenever
one of the last four candles has a NaN or nonpositive OHLC value, or
the high-low range of the current candle or of either of the two
preceding candles is zero. -/
theorem pattern_engine_skip_guard (p : Params) (c : Cols) (i : ℕ)
    (h : i < 3 ∨ patternValid c i = false ∨
      qv (getV c.highs i) - qv (getV c.lows i) = 0 ∨
      qv (getV c.highs (i - 1)) - qv (getV c.lows (i - 1)) = 0 ∨
      qv (getV c.highs (i - 2)) - qv (getV c.lows (i - 2)) = 0) :
    patternsAt p c i = {} := by
  unfold patternsAt patternActive
  rcases h with h | h | h | h | h
  · simp [Nat.not_le.mpr h]
  · simp [h]
  · simp [h]
  · simp [h]
  · simp [h]

/-- Witness for the amended C5: index 2 is before the start of the
pattern loop, so its row keeps the all-false initialisation. -/
theorem pattern_engine_skip_guard_witness :
    patternsAt pSmall cFive 2 = {} :=
  pattern_engine_skip_guard pSmall cFive 2 (Or.inl (by decide))

/-- C10: on every candle the pattern loop actually processes, the
doji family flags are mutually exclusive (the source uses an
if / elif / else chain), and one of gravestone, dragonfly or plain
doji is set exactly when the candle body is smaller than a tenth of
its high-low range. -/
theorem doji_family_exclusive (p : Params) (c : Cols) (i : ℕ)
    (h : patternActive c i = true) :
    (¬((patternsAt p c i).gravestone_doji = true ∧
       (patternsAt p c i).dragonfly_doji = true) ∧
     ¬((patternsAt p c i).gravestone_doji = true ∧
       (patternsAt p c i).doji = true) ∧
     ¬((patternsAt p c i).dragonfly_doji = true ∧
       (patternsAt p c i).doji = true)) ∧
    (((patternsAt p c i).gravestone_doji ||
      (patternsAt p c i).dragonfly_doji ||
      (patternsAt p c i).doji) = true ↔
      |qv (getV c.closes i) - qv (getV c.opens i)| <
        (qv (getV c.highs i) - qv (getV c.lows i)) * 0.1) := by
  have hne : ¬ (patternActive c i = false) := by simp [h]
  unfold patternsAt
  rw [if_neg hne]
  by_cases hfam : |qv (getV c.closes i) - qv (getV c.opens i)| <
      (qv (getV c.highs i) - qv (getV c.lows i)) * 0.1
  · have hrange : 0 < qv (getV c.highs i) - qv (getV c.lows i) := by
      nlinarith [abs_nonneg (qv (getV c.closes i) - qv (getV c.opens i))]
    by_cases h3 : (qv (getV c.highs i) - qv (getV c.lows i)) * 0.7 <
        qv (getV c.highs i) -
          max (qv (getV c.opens i)) (qv (getV c.closes i)) <;>
    by_cases h4 : min (qv (getV c.opens i)) (qv (getV c.closes i)) -
        qv (getV c.lows i) <
        (qv (getV c.highs i) - qv (getV c.lows i)) * 0.1 <;>
    by_cases h5 : (qv (getV c.highs i) - qv (getV c.lows i)) * 0.7 <
        min (qv (getV c.opens i)) (qv (getV c.closes i)) -
          qv (getV c.lows i) <;>
    by_cases h6 : qv (getV c.highs i) -
        max (qv (getV c.opens i)) (qv (getV c.closes i)) <
        (qv (getV c.highs i) - qv (getV c.lows i)) * 0.1 <;>
    simp [hfam, hrange, h3, h4, h5, h6]
  · simp [hfam]

/-- Witness for C10: the candle at index 3 of `cFive` is processed,
its body 0.1 is below a tenth of its range 3, and accordingly one of
the doji family flags is set. -/
theorem doji_family_exclusive_witness :
    ((patternsAt pSmall cFive 3).gravestone_doji ||
     (patternsAt pSmall cFive 3).dragonfly_doji ||
     (patternsAt pSmall cFive 3).doji) = true :=
  (doji_family_exclusive pSmall cFive 3
      (of_decide_eq_true (by with_unfolding_all rfl))).2.mpr
    (of_decide_eq_true (by with_unfolding_all rfl))

/-- C7: get_signal is total and only ever produces none or one of the
three literal labels; it returns none for every window shorter than
max(lookback, volatility_window, momentum_window) + 5, for every
window whose dataframe does not have exactly 12 columns, and whenever
NaNs remain in the numeric columns after the interpolation pass. -/
theorem get_signal_total_and_none_cases (p : Params) (st : StratState)
    (klines : List (List V)) :
    ((getSignal p st klines).1 = none ∨
     (getSignal p st klines).1 = some "BUY" ∨
     (getSignal p st klines).1 = some "SELL" ∨
     (getSignal p st klines).1 = some "HOLD") ∧
    (klines.length <
        max (max p.lookback_period p.volatility_window) p.momentum_window + 5 →
      (getSignal p st klines).1 = none) ∧
    (numCols klines ≠ 12 → (getSignal p st klines).1 = none) ∧
    (hasNaRemaining (rawCols klines) = true →
      (getSignal p st klines).1 = none) := by
  unfold getSignal
  by_cases h1 : klines.length <
      max (max p.lookback_period p.volatility_window) p.momentum_window + 5
  · simp [h1]
  · by_cases h2 : numCols klines ≠ 12
    · simp [h1, h2]
    · by_cases h3 : hasNaRemaining (rawCols klines) = true
      · simp [h1, h2, h3]
      · by_cases h4 : klines.length < 2
        · simp [h1, h2, h3, h4]
        · by_cases hb : (signalRowAt p (indicatorClean (rawCols klines))
              (klines.length - 1)).buy_signal = true
          · simp [h1, h2, h3, h4, hb]
          · by_cases hs : (signalRowAt p (indicatorClean (rawCols klines))
                (klines.length - 1)).sell_signal = true
            · simp [h1, h2, h3, h4, hb, hs]
            · simp [h1, h2, h3, h4, hb, hs]

/-- Witness for C7: the empty window is shorter than every minimum
length, so the facade returns none. -/
theorem get_signal_total_witness :
    (getSignal pSmall ⟨0, [], none⟩ []).1 = none :=
  (get_signal_total_and_none_cases pSmall ⟨0, [], none⟩ []).2.1 (by decide)

/-- C8: the emitted signal and the appended history entry depend only
on the parameters and the candle window, never on the mutable state,
so two invocations on the same immutable window, in particular the
second one starting from the state left by the first, return the same
label and record the same strength and reasons. -/
theorem get_signal_idempotent (p : Params) (st st' : StratState)
    (klines : List (List V)) :
    (getSignal p st klines).1 = (getSignal p st' klines).1 ∧
    (((getSignal p st klines).2.signal_history = st.signal_history ∧
      (getSignal p st' klines).2.signal_history = st'.signal_history) ∨
     (∃ e, (getSignal p st klines).2.signal_history =
          pushHistory st.signal_history e ∧
        (getSignal p st' klines).2.signal_history =
          pushHistory st'.signal_history e)) := by
  unfold getSignal
  by_cases h1 : klines.length <
      max (max p.lookback_period p.volatility_window) p.momentum_window + 5
  · simp [h1]
  · by_cases h2 : numCols klines ≠ 12
    · simp [h1, h2]
    · by_cases h3 : hasNaRemaining (rawCols klines) = true
      · simp [h1, h2, h3]
      · by_cases h4 : klines.length < 2
        · simp [h1, h2, h3, h4]
        · rcases hts : getV (colOf klines 0) (klines.length - 1) with _ | t <;>
          rcases hcp : getV (indicatorClean (rawCols klines)).closes
              (klines.length - 1) with _ | cv <;>
          rcases hmo : priceMomentumAt p (indicatorClean (rawCols klines))
              (klines.length - 1) with _ | mv <;>
          simp [h1, h2, h3, h4, hts, hcp, hmo] <;>
          exact Or.inr ⟨_, rfl, rfl⟩

end PA
